import Mathlib

/-!
Shallow embedding of the `mem-leak-detector` crate (src/lib.rs, src/scope.rs).

The crate wraps an inner allocator together with an `AtomicUsize` counter
`used`.  We model the counter as a `Nat` reduced modulo `USIZE = 2 ^ 64`
(the usize width on the 64-bit targets the crate targets), and model the
outcome of each forwarded inner-allocator call as an explicit `Bool`
parameter (`innerOk` for the fallible `Allocator` surface, `innerNull`
for the `GlobalAlloc` surface).  `usize::unchecked_sub`, whose underflow
is undefined behaviour, is modelled as an `Option`-valued subtraction,
so an operation that would hit undefined behaviour returns `none`.

Each Lean definition mirrors one Rust method of the crate; the state it
threads is the `used` counter (the only mutable state of the program).
-/

/-- Width modulus of `usize` on the 64-bit targets the crate is built for. -/
def USIZE : Nat := 2 ^ 64

/-- `AtomicUsize::fetch_add` (AcqRel): wrapping addition on `usize`.
We return the value stored after the operation. -/
def fetchAdd (used n : Nat) : Nat := (used + n) % USIZE

/-- `AtomicUsize::fetch_sub` (AcqRel): wrapping subtraction on `usize`.
We return the value stored after the operation. -/
def fetchSub (used n : Nat) : Nat := (used + (USIZE - n % USIZE)) % USIZE

/-- `usize::unchecked_sub`: defined only when no underflow occurs;
`none` models the undefined behaviour of an underflowing call. -/
def uncheckedSub (a b : Nat) : Option Nat := if b ≤ a then some (a - b) else none

/-- `Allocator::allocate` for `LeakDetector` (lib.rs lines 38-46): the inner
call runs first and `used` is bumped by `layout.size()` only on `Ok`
(via `inspect`).  Returns `(inner call succeeded, used afterwards)`. -/
def LeakDetector.allocate (used size : Nat) (innerOk : Bool) : Bool × Nat :=
  if innerOk then (true, fetchAdd used size) else (false, used)

/-- `Allocator::allocate_zeroed` (lib.rs lines 56-64): same counting as
`allocate`, forwarding to the inner zeroed allocation. -/
def LeakDetector.allocate_zeroed (used size : Nat) (innerOk : Bool) : Bool × Nat :=
  if innerOk then (true, fetchAdd used size) else (false, used)

/-- `Allocator::deallocate` (lib.rs lines 48-54): infallible; `used`
is decremented by `layout.size()` after the inner call. -/
def LeakDetector.deallocate (used size : Nat) : Nat := fetchSub used size

/-- `Allocator::grow` (lib.rs lines 66-80): on inner success, `used` is
bumped by `new_layout.size().unchecked_sub(old_layout.size())`;
`none` models the undefined behaviour when that subtraction underflows. -/
def LeakDetector.grow (used oldSize newSize : Nat) (innerOk : Bool) :
    Option (Bool × Nat) :=
  if innerOk then
    (uncheckedSub newSize oldSize).map (fun d => (true, fetchAdd used d))
  else some (false, used)

/-- `Allocator::grow_zeroed` (lib.rs lines 82-98): identical counting to
`grow`, forwarding to the inner zero-filling grow. -/
def LeakDetector.grow_zeroed (used oldSize newSize : Nat) (innerOk : Bool) :
    Option (Bool × Nat) :=
  if innerOk then
    (uncheckedSub newSize oldSize).map (fun d => (true, fetchAdd used d))
  else some (false, used)

/-- `Allocator::shrink` (lib.rs lines 100-114): on inner success the source
performs `fetch_add(old_layout.size().unchecked_sub(new_layout.size()))`
— note `fetch_add`, not `fetch_sub`; we embed it exactly as written. -/
def LeakDetector.shrink (used oldSize newSize : Nat) (innerOk : Bool) :
    Option (Bool × Nat) :=
  if innerOk then
    (uncheckedSub oldSize newSize).map (fun d => (true, fetchAdd used d))
  else some (false, used)

/-- `GlobalAlloc::alloc` (lib.rs lines 118-123): the inner result is
captured and `used` is incremented by `layout.size()` unconditionally,
whether or not the inner call returned null.  First component: whether
the returned pointer is null. -/
def LeakDetector.alloc (used size : Nat) (innerNull : Bool) : Bool × Nat :=
  (innerNull, fetchAdd used size)

/-- `GlobalAlloc::alloc_zeroed` (lib.rs lines 133-138): same unconditional
counting as `alloc`, forwarding to the inner zeroed allocation. -/
def LeakDetector.alloc_zeroed (used size : Nat) (innerNull : Bool) : Bool × Nat :=
  (innerNull, fetchAdd used size)

/-- `GlobalAlloc::dealloc` (lib.rs lines 125-131): `used` is decremented
by `layout.size()` after the inner call. -/
def LeakDetector.dealloc (used size : Nat) : Nat := fetchSub used size

/-- `GlobalAlloc::realloc` (lib.rs lines 140-148): the inner call runs, then
`used.update(|x| x.unchecked_sub(layout.size()) + new_size)` runs
unconditionally — the counter is rewritten even when the inner call
returned null.  `none` models the undefined behaviour when
`unchecked_sub` underflows. -/
def LeakDetector.realloc (used oldSize newSize : Nat) (innerNull : Bool) :
    Option (Bool × Nat) :=
  (uncheckedSub used oldSize).map (fun d => (innerNull, (d + newSize) % USIZE))

/-- Modelled from the spec: `get_used()` is called by scope.rs but its
definition is not among the given sources; the spec says it "returns
current counter". -/
def LeakDetector.get_used (used : Nat) : Nat := used

/-- `LeakDetectorScope` (scope.rs lines 3-6): holds the baseline counter
value `start`; the borrowed detector reference is represented implicitly
by passing the detector's counter to the drop model. -/
structure LeakDetectorScope where
  start : Nat

/-- `LeakDetector::scope` (scope.rs lines 9-14): captures the current
counter via `get_used` into `start`. -/
def LeakDetector.scope (used : Nat) : LeakDetectorScope :=
  { start := LeakDetector.get_used used }

/-- `Drop for LeakDetectorScope` under `debug_assertions` (scope.rs lines
25-31): re-reads the counter and `assert_eq!(start, end)`.  Returns
`true` exactly when that assertion fails, i.e. when the drop panics. -/
def scopeDropPanics (s : LeakDetectorScope) (usedAtDrop : Nat) : Bool :=
  !(s.start == LeakDetector.get_used usedAtDrop)

/-- `LeakDetector::assert` (lib.rs lines 151-155): loads the counter and
`assert!(used == 0)`.  Returns `(whether the assertion panics, counter
afterwards)`; the load leaves the counter unchanged. -/
def LeakDetector.assertRun (used : Nat) : Bool × Nat := (!(used == 0), used)

/-- One call of a balanced allocate/deallocate workload through the
fallible surface: either a successful `allocate` or a `deallocate`,
with the given layout size. -/
inductive PairOp where
  | alloc (size : Nat)
  | dealloc (size : Nat)
deriving DecidableEq

/-- Run a list of successful allocate/deallocate calls through one
instance, threading the counter. -/
def runPairs : List PairOp → Nat → Nat
  | [], u => u
  | PairOp.alloc s :: rest, u => runPairs rest (LeakDetector.allocate u s true).2
  | PairOp.dealloc s :: rest, u => runPairs rest (LeakDetector.deallocate u s)

/-- Sizes of the allocate calls in a workload, in order. -/
def allocSizes : List PairOp → List Nat
  | [] => []
  | PairOp.alloc s :: rest => s :: allocSizes rest
  | PairOp.dealloc _ :: rest => allocSizes rest

/-- Sizes of the deallocate calls in a workload, in order. -/
def deallocSizes : List PairOp → List Nat
  | [] => []
  | PairOp.alloc _ :: rest => deallocSizes rest
  | PairOp.dealloc s :: rest => s :: deallocSizes rest

instance : NeZero USIZE := ⟨by simp [USIZE]⟩

lemma USIZE_pos : 0 < USIZE := Nat.pos_pow_of_pos 64 (by norm_num)

lemma fetchAdd_lt (u n : Nat) : fetchAdd u n < USIZE :=
  Nat.mod_lt _ USIZE_pos

lemma fetchSub_lt (u n : Nat) : fetchSub u n < USIZE :=
  Nat.mod_lt _ USIZE_pos

lemma fetchAdd_cast (u n : Nat) :
    ((fetchAdd u n : Nat) : ZMod USIZE) = (u : ZMod USIZE) + n := by
  simp [fetchAdd, ZMod.natCast_mod]

lemma fetchSub_cast (u n : Nat) :
    ((fetchSub u n : Nat) : ZMod USIZE) = (u : ZMod USIZE) - n := by
  have h : n % USIZE ≤ USIZE := (Nat.mod_lt _ USIZE_pos).le
  rw [fetchSub, ZMod.natCast_mod, Nat.cast_add, Nat.cast_sub h,
    ZMod.natCast_self, ZMod.natCast_mod]
  ring

lemma runPairs_lt (l : List PairOp) (u : Nat) (hu : u < USIZE) :
    runPairs l u < USIZE := by
  induction l generalizing u with
  | nil => exact hu
  | cons op rest ih =>
    cases op with
    | alloc s => exact ih _ (by simpa [LeakDetector.allocate] using fetchAdd_lt u s)
    | dealloc s => exact ih _ (fetchSub_lt u s)

lemma runPairs_cast (l : List PairOp) (u : Nat) :
    ((runPairs l u : Nat) : ZMod USIZE) =
      (u : ZMod USIZE) + ((allocSizes l).sum : ZMod USIZE)
        - ((deallocSizes l).sum : ZMod USIZE) := by
  induction l generalizing u with
  | nil => simp [runPairs, allocSizes, deallocSizes]
  | cons op rest ih =>
    cases op with
    | alloc s =>
      simp only [runPairs, LeakDetector.allocate, if_pos, allocSizes, deallocSizes,
        List.sum_cons, ih, fetchAdd_cast, Nat.cast_add]
      ring
    | dealloc s =>
      simp only [runPairs, LeakDetector.deallocate, allocSizes, deallocSizes,
        List.sum_cons, ih, fetchSub_cast, Nat.cast_add]
      ring

lemma runPairs_eq_self (l : List PairOp) (u : Nat)
    (hperm : (allocSizes l).Perm (deallocSizes l)) (hu : u < USIZE) :
    runPairs l u = u := by
  have hsum : (allocSizes l).sum = (deallocSizes l).sum := hperm.sum_eq
  have hcast : ((runPairs l u : Nat) : ZMod USIZE) = (u : ZMod USIZE) := by
    rw [runPairs_cast, hsum]; ring
  have h1 := ZMod.val_cast_of_lt (runPairs_lt l u hu)
  have h2 := ZMod.val_cast_of_lt hu
  rw [← h1, hcast, h2]

/-- C1: the claim says a successful shrink with new size ≤ old size decreases
the counter by old − new.  The source instead performs
`fetch_add(old_layout.size().unchecked_sub(new_layout.size()))`, so the
counter increases by old − new: shrinking from 10 to 4 bytes with the
counter at 10 leaves it at 16, not at 4. -/
theorem shrink_adds_instead_of_subtracting :
    LeakDetector.shrink 10 10 4 true = some (true, 16) := by decide

/-- C2: the claim says every allocation-path operation leaves the counter
unchanged on inner failure.  True on the fallible surface, but on the
global surface `alloc`, `alloc_zeroed` and `realloc` update the counter
unconditionally: with the inner call returning null (first component
`true`), the counter still moves 0 → 8, 0 → 8 and 16 → 8 respectively. -/
theorem global_surface_counts_failed_allocation :
    LeakDetector.alloc 0 8 true = (true, 8) ∧
      LeakDetector.alloc_zeroed 0 8 true = (true, 8) ∧
      LeakDetector.realloc 16 16 8 true = some (true, 8) := by decide

/-- C3: the claim says a null-returning `realloc` leaves the counter
untouched.  The source applies `used.update(|x| x.unchecked_sub(old) + new)`
whether or not the inner call returned null: with counter 10, old layout
size 10 and new size 4, a failing realloc still rewrites the counter to 4. -/
theorem global_realloc_rewrites_counter_on_null :
    LeakDetector.realloc 10 10 4 true = some (true, 4) := by decide

/-- C4: `get_used()` returns the current counter value, and the scope
guard's captured `start` equals the counter at the moment the scope was
opened. -/
theorem get_used_reports_counter (u : Nat) :
    LeakDetector.get_used u = u ∧ (LeakDetector.scope u).start = u :=
  ⟨rfl, rfl⟩

/-- C5: a successful `grow` or `grow_zeroed` with new size ≥ old size
increases the counter by exactly newSize − oldSize (no usize wrap under
the stated bound). -/
theorem grow_counts_exact_delta (u oldSize newSize : Nat) (h : oldSize ≤ newSize)
    (hov : u + (newSize - oldSize) < USIZE) :
    LeakDetector.grow u oldSize newSize true =
        some (true, u + (newSize - oldSize)) ∧
      LeakDetector.grow_zeroed u oldSize newSize true =
        some (true, u + (newSize - oldSize)) := by
  constructor <;>
    simp [LeakDetector.grow, LeakDetector.grow_zeroed, uncheckedSub, h,
      fetchAdd, Nat.mod_eq_of_lt hov]

theorem grow_counts_exact_delta_witness :
    LeakDetector.grow 7 3 5 true = some (true, 9) ∧
      LeakDetector.grow_zeroed 7 3 5 true = some (true, 9) :=
  grow_counts_exact_delta 7 3 5 (by norm_num) (by norm_num [USIZE])

/-- C6: any sequence of paired successful allocates and matching
deallocates (the multiset of allocated sizes equals the multiset of
deallocated sizes) through one fresh instance brings the counter back to
0, `get_used()` reports 0 and `assert()` does not fail. -/
theorem paired_ops_restore_zero (l : List PairOp)
    (hperm : (allocSizes l).Perm (deallocSizes l)) :
    runPairs l 0 = 0 ∧ LeakDetector.get_used (runPairs l 0) = 0 ∧
      (LeakDetector.assertRun (runPairs l 0)).1 = false := by
  have h := runPairs_eq_self l 0 hperm USIZE_pos
  exact ⟨h, by simp [LeakDetector.get_used, h],
    by simp [LeakDetector.assertRun, h]⟩

theorem paired_ops_restore_zero_witness :
    runPairs [PairOp.alloc 10, PairOp.dealloc 10,
        PairOp.alloc 130, PairOp.dealloc 130] 0 = 0 ∧
      LeakDetector.get_used (runPairs [PairOp.alloc 10, PairOp.dealloc 10,
        PairOp.alloc 130, PairOp.dealloc 130] 0) = 0 ∧
      (LeakDetector.assertRun (runPairs [PairOp.alloc 10, PairOp.dealloc 10,
        PairOp.alloc 130, PairOp.dealloc 130] 0)).1 = false :=
  paired_ops_restore_zero _ (List.Perm.refl _)

/-- C7: in checked builds the scope guard's exit check panics exactly when
the counter at destruction differs from the captured `start`; a block of
balanced allocate/deallocate calls passes the check, and a single
unbalanced allocation of positive size makes it fail. -/
theorem scope_check_fails_iff_mismatch (u : Nat) (hu : u < USIZE) :
    (∀ v, scopeDropPanics (LeakDetector.scope u) v = true ↔ v ≠ u) ∧
      (∀ l, (allocSizes l).Perm (deallocSizes l) →
        scopeDropPanics (LeakDetector.scope u) (runPairs l u) = false) ∧
      (∀ s, 0 < s → u + s < USIZE →
        scopeDropPanics (LeakDetector.scope u)
          (runPairs [PairOp.alloc s] u) = true) := by
  refine ⟨fun v => ?_, fun l hl => ?_, fun s hs hov => ?_⟩
  · simp [scopeDropPanics, LeakDetector.scope, LeakDetector.get_used, ne_comm]
  · simp [scopeDropPanics, LeakDetector.scope, LeakDetector.get_used,
      runPairs_eq_self l u hl hu]
  · have hrun : runPairs [PairOp.alloc s] u = u + s := by
      simp [runPairs, LeakDetector.allocate, fetchAdd, Nat.mod_eq_of_lt hov]
    simp only [hrun, scopeDropPanics, LeakDetector.scope, LeakDetector.get_used]
    simp [Nat.ne_of_lt (Nat.lt_add_of_pos_right hs)]

theorem scope_check_fails_iff_mismatch_witness :
    scopeDropPanics (LeakDetector.scope 0)
      (runPairs [PairOp.alloc 64] 0) = true :=
  (scope_check_fails_iff_mismatch 0 (by norm_num [USIZE])).2.2 64
    (by norm_num) (by norm_num [USIZE])

/-- C8: `assert()` panics exactly when the counter is nonzero, and leaves
the counter unchanged. -/
theorem assert_panics_iff_nonzero (u : Nat) :
    ((LeakDetector.assertRun u).1 = true ↔ u ≠ 0) ∧
      (LeakDetector.assertRun u).2 = u := by
  simp [LeakDetector.assertRun]

/-- C9: the claim says the counter always equals the sum of live-region
sizes.  After a successful 10-byte allocation followed by a successful
shrink of that region to 4 bytes, the single live region has size 4 but
the counter reads 16 (the shrink path adds old − new instead of
subtracting it), so the invariant fails on a reachable state. -/
theorem shrink_breaks_live_bytes_invariant :
    LeakDetector.shrink (LeakDetector.allocate 0 10 true).2 10 4 true =
        some (true, 16) ∧ (16 : Nat) ≠ 4 := by decide

/-- C10: under the claimed preconditions (new ≥ old for grow/grow_zeroed,
new ≤ old for shrink, counter ≥ old layout size for realloc) none of the
unchecked subtractions underflows, so every operation's counter
arithmetic is well-defined (`isSome`) for either inner outcome. -/
theorem counter_deltas_never_underflow (u : Nat) :
    (∀ oldSize newSize b, oldSize ≤ newSize →
      (LeakDetector.grow u oldSize newSize b).isSome ∧
        (LeakDetector.grow_zeroed u oldSize newSize b).isSome) ∧
      (∀ oldSize newSize b, newSize ≤ oldSize →
        (LeakDetector.shrink u oldSize newSize b).isSome) ∧
      (∀ oldSize newSize b, oldSize ≤ u →
        (LeakDetector.realloc u oldSize newSize b).isSome) := by
  refine ⟨fun o n b h => ⟨?_, ?_⟩, fun o n b h => ?_, fun o n b h => ?_⟩ <;>
    cases b <;>
    simp [LeakDetector.grow, LeakDetector.grow_zeroed, LeakDetector.shrink,
      LeakDetector.realloc, uncheckedSub, h]

theorem counter_deltas_never_underflow_witness :
    (LeakDetector.grow 0 3 5 true).isSome ∧
      (LeakDetector.shrink 0 5 3 true).isSome ∧
      (LeakDetector.realloc 7 5 9 false).isSome :=
  ⟨((counter_deltas_never_underflow 0).1 3 5 true (by norm_num)).1,
    (counter_deltas_never_underflow 0).2.1 5 3 true (by norm_num),
    (counter_deltas_never_underflow 7).2.2 5 9 false (by norm_num)⟩
